import Mathlib

/-
Shallow embedding of src/script.mjs, an AWS Identity Center group-membership
action with three entry points (invoke, error, halt).  JavaScript exceptions
are modelled as values of type JSError threaded through Except; the two AWS
network calls are modelled as oracles (SendOutcome) supplied to invoke, and
invoke additionally returns the list of network calls it made and whether the
directory client was constructed, so that ordering claims ("before any network
call") are statable.  The external template-resolution collaborator
(resolveJSONPathTemplates, from a package outside this repository) is modelled
by its documented output shape: invoke is parameterized by its outcome, a
record of resolved params and an error list.
-/

namespace AwsAddToGroup

/-- A JavaScript value as far as the validation and fallback logic of the
action observes it: a string, or a non-string value that is truthy or falsy.
A missing object property is modelled as Option.none at the use site. -/
inductive JSVal where
  | str (s : String)
  | truthyNonString
  | falsyNonString
deriving DecidableEq

/-- A thrown JavaScript error as the action observes it: its name (used to
classify AWS SDK failures), its message, and the value of the retryable
property set by the RetryableError and FatalError constructors (none for
every other error, e.g. a plain Error or an AWS SDK error, which never set
that property). -/
structure JSError where
  name : String
  message : String
  retryable : Option Bool
deriving DecidableEq

/-- The constructor of class RetryableError extends Error: it stores the
message and sets this.retryable = true. -/
def RetryableError (message : String) : JSError :=
  { name := "RetryableError", message := message, retryable := some true }

/-- The constructor of class FatalError extends Error: it stores the
message and sets this.retryable = false. -/
def FatalError (message : String) : JSError :=
  { name := "FatalError", message := message, retryable := some false }

/-- The plain built-in Error constructor, new Error(message): no retryable
property is set. -/
def plainError (message : String) : JSError :=
  { name := "Error", message := message, retryable := none }

/-- The check error instanceof RetryableError.  Within this program the only
errors of that class are those built by the RetryableError constructor, which
are exactly the errors carrying retryable = some true. -/
def isRetryableError (e : JSError) : Bool := e.retryable == some true

/-- The check error instanceof FatalError, analogously. -/
def isFatalError (e : JSError) : Bool := e.retryable == some false

/-- The outcome of one client.send(command) network call: a resolved response
carrying the one string field the action reads (UserId or MembershipId), or a
rejection with a JavaScript error. -/
inductive SendOutcome where
  | ok (value : String)
  | err (e : JSError)
deriving DecidableEq

/-- Embedding of getUserIdFromUsername: issues the GetUserIdCommand (modelled
by the oracle send) and classifies failures: ResourceNotFoundException becomes
a FatalError naming the user, ThrottlingException and
ServiceUnavailableException become a RetryableError embedding the upstream
message, anything else becomes a FatalError embedding the upstream message. -/
def getUserIdFromUsername (send : SendOutcome) (userName : String) :
    Except JSError String :=
  match send with
  | SendOutcome.ok userId => Except.ok userId
  | SendOutcome.err e =>
    if e.name == "ResourceNotFoundException" then
      Except.error (FatalError ("User not found: " ++ userName))
    else if e.name == "ThrottlingException" || e.name == "ServiceUnavailableException" then
      Except.error (RetryableError ("AWS service temporarily unavailable: " ++ e.message))
    else
      Except.error (FatalError ("Failed to get user ID for " ++ userName ++ ": " ++ e.message))

/-- Embedding of addUserToGroup: issues the CreateGroupMembershipCommand
(modelled by the oracle send).  A ConflictException is swallowed and the
in-band sentinel string "existing" is returned; ResourceNotFoundException
becomes a FatalError naming the group; throttling and service-unavailable
become a RetryableError embedding the upstream message; anything else becomes
a FatalError embedding the upstream message. -/
def addUserToGroup (send : SendOutcome) (groupId : String) :
    Except JSError String :=
  match send with
  | SendOutcome.ok membershipId => Except.ok membershipId
  | SendOutcome.err e =>
    if e.name == "ConflictException" then
      Except.ok "existing"
    else if e.name == "ResourceNotFoundException" then
      Except.error (FatalError ("Group not found: " ++ groupId))
    else if e.name == "ThrottlingException" || e.name == "ServiceUnavailableException" then
      Except.error (RetryableError ("AWS service temporarily unavailable: " ++ e.message))
    else
      Except.error (FatalError ("Failed to add user to group: " ++ e.message))

/-- The params object as the action reads it: each of the four fields may be
absent (none) or hold any JavaScript value. -/
structure Params where
  userName : Option JSVal
  identityStoreId : Option JSVal
  groupId : Option JSVal
  region : Option JSVal
deriving DecidableEq

/-- A character the JavaScript String.prototype.trim method removes (the
common WhiteSpace and LineTerminator code points). -/
def jsWhitespace (c : Char) : Bool :=
  c == ' ' || c == '\t' || c == '\n' || c == '\r' || c == '\x0b' || c == '\x0c'

/-- The JavaScript String.prototype.trim method: remove leading and trailing
whitespace. -/
def jsTrim (s : String) : String :=
  List.asString (((s.toList.dropWhile jsWhitespace).reverse.dropWhile jsWhitespace).reverse)

/-- One field passes the check in validateInputs exactly when the negation of
(!v || typeof v !== 'string' || v.trim() === '') holds: the value is present,
is a string, and trims to a non-empty string. -/
def validField : Option JSVal → Bool
  | some (JSVal.str s) => !(jsTrim s == "")
  | _ => false

/-- Embedding of validateInputs: checks userName, identityStoreId, groupId,
region in that order and throws a FatalError for the first field that fails
its check (later fields are then not examined). -/
def validateInputs (p : Params) : Except JSError Unit :=
  if !validField p.userName then
    Except.error (FatalError "Invalid or missing userName parameter")
  else if !validField p.identityStoreId then
    Except.error (FatalError "Invalid or missing identityStoreId parameter")
  else if !validField p.groupId then
    Except.error (FatalError "Invalid or missing groupId parameter")
  else if !validField p.region then
    Except.error (FatalError "Invalid or missing region parameter")
  else
    Except.ok ()

/-- Read the string out of a params field; only used after validateInputs has
succeeded, where the field is guaranteed to be a string (the default branch is
unreachable then). -/
def strOf : Option JSVal → String
  | some (JSVal.str s) => s
  | _ => ""

/-- The context.secrets object: each credential field may be absent or hold a
string (possibly empty). -/
structure Secrets where
  BASIC_USERNAME : Option String
  BASIC_PASSWORD : Option String
deriving DecidableEq

/-- Truthiness of an optionally-present string: an absent field and the empty
string are falsy. -/
def truthyStr : Option String → Bool
  | some s => !(s == "")
  | none => false

/-- The credential check !context.secrets?.BASIC_USERNAME ||
!context.secrets?.BASIC_PASSWORD, negated: both fields are present and
non-empty (the outer secrets object itself may be absent). -/
def credsOk : Option Secrets → Bool
  | none => false
  | some s => truthyStr s.BASIC_USERNAME && truthyStr s.BASIC_PASSWORD

/-- A network call issued by invoke, recorded with its request parameters. -/
inductive ApiCall where
  | getUserId (identityStoreId userName : String)
  | createMembership (identityStoreId groupId userId : String)
deriving DecidableEq

/-- The result object a successful invoke returns. -/
structure ActionResult where
  userName : String
  groupId : String
  userId : String
  membershipId : String
  added : Bool
  addedAt : String
deriving DecidableEq

instance {ε α : Type} [DecidableEq ε] [DecidableEq α] : DecidableEq (Except ε α) :=
  fun x y =>
    match x, y with
    | Except.ok a, Except.ok b =>
      if h : a = b then isTrue (by rw [h]) else isFalse (by simp [h])
    | Except.error a, Except.error b =>
      if h : a = b then isTrue (by rw [h]) else isFalse (by simp [h])
    | Except.ok _, Except.error _ => isFalse (by simp)
    | Except.error _, Except.ok _ => isFalse (by simp)

/-- The observable outcome of one invoke call: the returned result or thrown
error, the network calls made (in order), and whether the IdentitystoreClient
was constructed. -/
structure InvokeOutput where
  outcome : Except JSError ActionResult
  calls : List ApiCall
  clientConstructed : Bool
deriving DecidableEq

/-- The try block of invoke: validation, credential check, client
construction, user resolution, membership creation, result assembly.  The
oracles s1 and s2 give the outcomes of the two network calls; now is the
value of new Date().toISOString() at result-assembly time. -/
def invokeBody (p : Params) (secrets : Option Secrets)
    (s1 s2 : SendOutcome) (now : String) : InvokeOutput :=
  match validateInputs p with
  | Except.error e => { outcome := Except.error e, calls := [], clientConstructed := false }
  | Except.ok _ =>
    let userName := strOf p.userName
    let identityStoreId := strOf p.identityStoreId
    let groupId := strOf p.groupId
    if !credsOk secrets then
      { outcome := Except.error (FatalError "Missing required credentials in secrets"),
        calls := [], clientConstructed := false }
    else
      match getUserIdFromUsername s1 userName with
      | Except.error e =>
        { outcome := Except.error e,
          calls := [ApiCall.getUserId identityStoreId userName],
          clientConstructed := true }
      | Except.ok userId =>
        match addUserToGroup s2 groupId with
        | Except.error e =>
          { outcome := Except.error e,
            calls := [ApiCall.getUserId identityStoreId userName,
                      ApiCall.createMembership identityStoreId groupId userId],
            clientConstructed := true }
        | Except.ok membershipId =>
          { outcome := Except.ok
              { userName := userName
                groupId := groupId
                userId := userId
                membershipId := if membershipId == "existing" then "already-member" else membershipId
                added := !(membershipId == "existing")
                addedAt := now },
            calls := [ApiCall.getUserId identityStoreId userName,
                      ApiCall.createMembership identityStoreId groupId userId],
            clientConstructed := true }

/-- The catch block of invoke: an error that is an instance of RetryableError
or FatalError is rethrown unchanged; any other error is wrapped as a
FatalError with its message embedded. -/
def applyCatch (o : InvokeOutput) : InvokeOutput :=
  match o.outcome with
  | Except.ok r => { o with outcome := Except.ok r }
  | Except.error e =>
    if isRetryableError e || isFatalError e then
      { o with outcome := Except.error e }
    else
      { o with outcome := Except.error (FatalError ("Unexpected error: " ++ e.message)) }

/-- The output shape of the external collaborator
resolveJSONPathTemplates(params, jobContext): the resolved params and a list
of resolution-error strings.  The collaborator lives outside this repository,
so invoke is parameterized directly by its outcome. -/
structure TemplateOutcome where
  result : Params
  errors : List String
deriving DecidableEq

/-- Embedding of the invoke entry point.  Note that the template-resolution
failure is thrown with the plain Error constructor and, in the source, sits
before the try block, so it is not subject to the catch-block
classification. -/
def invoke (tr : TemplateOutcome) (secrets : Option Secrets)
    (s1 s2 : SendOutcome) (now : String) : InvokeOutput :=
  if tr.errors.length > 0 then
    { outcome := Except.error (plainError
        ("Failed to resolve template values: " ++ String.intercalate ", " tr.errors)),
      calls := [], clientConstructed := false }
  else
    applyCatch (invokeBody tr.result secrets s1 s2 now)

/-- The params object the error entry point reads: its error property,
holding the error produced by a prior invoke failure. -/
structure ErrorParams where
  error : JSError
deriving DecidableEq

/-- Embedding of the error entry point: logs and rethrows params.error. -/
def error (p : ErrorParams) : Except JSError Unit :=
  Except.error p.error

/-- The params object the halt entry point reads: reason, userName and
groupId, each possibly absent. -/
structure HaltParams where
  reason : Option JSVal
  userName : Option JSVal
  groupId : Option JSVal
deriving DecidableEq

/-- The result object halt returns; the three pass-through fields keep
whatever JavaScript value was supplied when it is truthy. -/
structure HaltResult where
  userName : JSVal
  groupId : JSVal
  reason : JSVal
  haltedAt : String
  cleanupCompleted : Bool
deriving DecidableEq

/-- The JavaScript fallback expression v || 'unknown': a truthy value passes
through, a falsy or absent one is replaced by the string "unknown". -/
def orUnknown : Option JSVal → JSVal
  | some (JSVal.str s) => if s == "" then JSVal.str "unknown" else JSVal.str s
  | some JSVal.truthyNonString => JSVal.truthyNonString
  | _ => JSVal.str "unknown"

/-- Embedding of the halt entry point; it is a total function (the source
body contains no throw and calls nothing that can throw), with now the value
of new Date().toISOString(). -/
def halt (p : HaltParams) (now : String) : HaltResult :=
  { userName := orUnknown p.userName
    groupId := orUnknown p.groupId
    reason := orUnknown p.reason
    haltedAt := now
    cleanupCompleted := true }

/-- Helper: every error validateInputs throws was built by the FatalError
constructor, applied to the message it carries. -/
theorem validateInputs_error_shape (p : Params) (e : JSError)
    (h : validateInputs p = Except.error e) : e = FatalError e.message := by
  unfold validateInputs at h
  split_ifs at h <;> (injection h with h; subst h; rfl)

/-- Helper: the catch block of invoke only lets errors out that carry a
retryable flag: rethrown classified errors keep theirs, and everything else
is wrapped by the FatalError constructor. -/
theorem applyCatch_classifies (o : InvokeOutput) (e : JSError)
    (h : (applyCatch o).outcome = Except.error e) :
    e.retryable = some true ∨ e.retryable = some false := by
  obtain ⟨out, calls, cc⟩ := o
  cases out with
  | ok r => simp [applyCatch] at h
  | error e' =>
    by_cases hr : (isRetryableError e' || isFatalError e') = true
    · simp [applyCatch, hr] at h
      subst h
      simp only [isRetryableError, isFatalError, Bool.or_eq_true, beq_iff_eq] at hr
      exact hr
    · simp [applyCatch, hr] at h
      subst h
      exact Or.inr rfl

/-- Helper: an error thrown before the two network calls (by validateInputs
or the credential check) surfaces from invoke unchanged when it carries a
retryable flag, with no calls made and no client constructed. -/
theorem applyCatch_rethrow (o : InvokeOutput) (e : JSError)
    (ho : o.outcome = Except.error e) (he : e.retryable ≠ none) :
    applyCatch o = o := by
  have hc : (isRetryableError e || isFatalError e) = true := by
    simp only [isRetryableError, isFatalError, Bool.or_eq_true, beq_iff_eq]
    cases hr : e.retryable with
    | none => exact absurd hr he
    | some b => cases b with
      | true => exact Or.inl rfl
      | false => exact Or.inr rfl
  obtain ⟨out, calls, cc⟩ := o
  dsimp only at ho
  subst ho
  simp [applyCatch, hc]

/-- C9: the error entry point always raises, and the object it raises is
exactly the error object it received in params.error, unmodified. -/
theorem error_rethrows_unchanged (p : ErrorParams) :
    error p = Except.error p.error ∧ ∀ r, error p ≠ Except.ok r := by
  exact ⟨rfl, fun r h => by simp [error] at h⟩

/-- C10: every error built by the RetryableError constructor carries the
machine-readable field retryable = true on the error object itself, and every
error built by the FatalError constructor carries retryable = false. -/
theorem classified_errors_carry_retryable_flag (m : String) :
    (RetryableError m).retryable = some true ∧
    (FatalError m).retryable = some false :=
  ⟨rfl, rfl⟩

/-- C8: halt (a total function: it cannot raise) always returns
cleanupCompleted = true and haltedAt = the current ISO-8601 instant, and each
of userName, groupId, reason is the supplied value when that value is a
non-empty string and the string "unknown" when the field is absent. -/
theorem halt_contract (p : HaltParams) (now : String) :
    (halt p now).cleanupCompleted = true ∧
    (halt p now).haltedAt = now ∧
    (p.userName = none → (halt p now).userName = JSVal.str "unknown") ∧
    (p.groupId = none → (halt p now).groupId = JSVal.str "unknown") ∧
    (p.reason = none → (halt p now).reason = JSVal.str "unknown") ∧
    (∀ s, s ≠ "" → p.userName = some (JSVal.str s) → (halt p now).userName = JSVal.str s) ∧
    (∀ s, s ≠ "" → p.groupId = some (JSVal.str s) → (halt p now).groupId = JSVal.str s) ∧
    (∀ s, s ≠ "" → p.reason = some (JSVal.str s) → (halt p now).reason = JSVal.str s) := by
  refine ⟨rfl, rfl, ?_, ?_, ?_, ?_, ?_, ?_⟩ <;>
    first
      | (intro h; simp [halt, orUnknown, h])
      | (intro s hs h; simp [halt, orUnknown, h, hs])

/-- C8 witness: halt at a concrete input with userName present and the other
two fields absent. -/
theorem halt_contract_witness :
    (halt ⟨none, some (JSVal.str "bob"), none⟩ "2024-01-01T00:00:00Z").cleanupCompleted = true ∧
    (halt ⟨none, some (JSVal.str "bob"), none⟩ "2024-01-01T00:00:00Z").userName = JSVal.str "bob" ∧
    (halt ⟨none, some (JSVal.str "bob"), none⟩ "2024-01-01T00:00:00Z").reason = JSVal.str "unknown" := by
  have h := halt_contract ⟨none, some (JSVal.str "bob"), none⟩ "2024-01-01T00:00:00Z"
  exact ⟨h.1, h.2.2.2.2.2.1 "bob" (by decide) rfl, h.2.2.2.2.1 rfl⟩

/-- C2: when template resolution and validation succeed, credentials are
present, user resolution succeeds and membership creation fails with a
ConflictException, invoke does not raise: it returns a successful result with
added = false and membershipId = "already-member". -/
theorem invoke_conflict_already_member (tr : TemplateOutcome) (secrets : Option Secrets)
    (uid em : String) (now : String)
    (h0 : tr.errors = [])
    (hv : validateInputs tr.result = Except.ok ())
    (hc : credsOk secrets = true) :
    (invoke tr secrets (SendOutcome.ok uid)
        (SendOutcome.err ⟨"ConflictException", em, none⟩) now).outcome =
      Except.ok { userName := strOf tr.result.userName
                  groupId := strOf tr.result.groupId
                  userId := uid
                  membershipId := "already-member"
                  added := false
                  addedAt := now } := by
  simp [invoke, h0, invokeBody, hv, hc, getUserIdFromUsername, addUserToGroup, applyCatch]

/-- C2 witness: a concrete conflicting invocation. -/
theorem invoke_conflict_already_member_witness :
    (invoke ⟨⟨some (JSVal.str "alice"), some (JSVal.str "d-1"), some (JSVal.str "g-1"),
        some (JSVal.str "us-east-1")⟩, []⟩ (some ⟨some "AK", some "SK"⟩)
        (SendOutcome.ok "u-1")
        (SendOutcome.err ⟨"ConflictException", "already there", none⟩)
        "2024-01-01T00:00:00Z").outcome =
      Except.ok { userName := "alice", groupId := "g-1", userId := "u-1",
                  membershipId := "already-member", added := false,
                  addedAt := "2024-01-01T00:00:00Z" } := by
  exact invoke_conflict_already_member
    ⟨⟨some (JSVal.str "alice"), some (JSVal.str "d-1"), some (JSVal.str "g-1"),
        some (JSVal.str "us-east-1")⟩, []⟩ (some ⟨some "AK", some "SK"⟩)
    "u-1" "already there" "2024-01-01T00:00:00Z" rfl (by decide) (by decide)

/-- C3: when template resolution, validation and the credential check
succeed, a failure of the user-resolution call or of the membership-creation
call whose error name is ThrottlingException or ServiceUnavailableException
makes invoke raise the RetryableError (retryable = true, hence never a
FatalError) whose message embeds the original upstream message. -/
theorem invoke_throttling_retryable (tr : TemplateOutcome) (secrets : Option Secrets)
    (nm em uid : String) (s2 : SendOutcome) (now : String)
    (h0 : tr.errors = [])
    (hv : validateInputs tr.result = Except.ok ())
    (hc : credsOk secrets = true)
    (hn : nm = "ThrottlingException" ∨ nm = "ServiceUnavailableException") :
    ((invoke tr secrets (SendOutcome.err ⟨nm, em, none⟩) s2 now).outcome =
        Except.error (RetryableError ("AWS service temporarily unavailable: " ++ em)))
    ∧ ((invoke tr secrets (SendOutcome.ok uid)
          (SendOutcome.err ⟨nm, em, none⟩) now).outcome =
        Except.error (RetryableError ("AWS service temporarily unavailable: " ++ em)))
    ∧ (RetryableError ("AWS service temporarily unavailable: " ++ em)).retryable = some true := by
  rcases hn with h | h <;> subst h <;>
    refine ⟨?_, ?_, rfl⟩ <;>
    simp [invoke, h0, invokeBody, hv, hc, getUserIdFromUsername, addUserToGroup,
      applyCatch, isRetryableError, isFatalError, RetryableError]

/-- C3 witness: a concrete throttled invocation on the resolve call. -/
theorem invoke_throttling_retryable_witness :
    (invoke ⟨⟨some (JSVal.str "alice"), some (JSVal.str "d-1"), some (JSVal.str "g-1"),
        some (JSVal.str "us-east-1")⟩, []⟩ (some ⟨some "AK", some "SK"⟩)
        (SendOutcome.err ⟨"ThrottlingException", "slow down", none⟩)
        (SendOutcome.ok "m-1") "2024-01-01T00:00:00Z").outcome =
      Except.error (RetryableError "AWS service temporarily unavailable: slow down") := by
  exact (invoke_throttling_retryable
    ⟨⟨some (JSVal.str "alice"), some (JSVal.str "d-1"), some (JSVal.str "g-1"),
        some (JSVal.str "us-east-1")⟩, []⟩ (some ⟨some "AK", some "SK"⟩)
    "ThrottlingException" "slow down" "u-1" (SendOutcome.ok "m-1") "2024-01-01T00:00:00Z"
    rfl (by decide) (by decide) (Or.inl rfl)).1

/-- C4: when template resolution, validation and the credential check
succeed, a ResourceNotFoundException on the user-resolution call makes invoke
raise a FatalError whose message contains the literal userName, and a
ResourceNotFoundException on the membership-creation call makes invoke raise
a FatalError whose message contains the literal groupId. -/
theorem invoke_not_found_fatal (tr : TemplateOutcome) (secrets : Option Secrets)
    (em uid : String) (s2 : SendOutcome) (now : String)
    (h0 : tr.errors = [])
    (hv : validateInputs tr.result = Except.ok ())
    (hc : credsOk secrets = true) :
    ((invoke tr secrets (SendOutcome.err ⟨"ResourceNotFoundException", em, none⟩)
        s2 now).outcome =
      Except.error (FatalError ("User not found: " ++ strOf tr.result.userName)))
    ∧ ((invoke tr secrets (SendOutcome.ok uid)
          (SendOutcome.err ⟨"ResourceNotFoundException", em, none⟩) now).outcome =
        Except.error (FatalError ("Group not found: " ++ strOf tr.result.groupId)))
    ∧ (∀ m, (FatalError m).retryable = some false) := by
  refine ⟨?_, ?_, fun m => rfl⟩ <;>
    simp [invoke, h0, invokeBody, hv, hc, getUserIdFromUsername, addUserToGroup,
      applyCatch, isRetryableError, isFatalError, FatalError]

/-- C4 witness: a concrete user-not-found invocation. -/
theorem invoke_not_found_fatal_witness :
    (invoke ⟨⟨some (JSVal.str "alice"), some (JSVal.str "d-1"), some (JSVal.str "g-1"),
        some (JSVal.str "us-east-1")⟩, []⟩ (some ⟨some "AK", some "SK"⟩)
        (SendOutcome.err ⟨"ResourceNotFoundException", "no such user", none⟩)
        (SendOutcome.ok "m-1") "2024-01-01T00:00:00Z").outcome =
      Except.error (FatalError "User not found: alice") := by
  exact (invoke_not_found_fatal
    ⟨⟨some (JSVal.str "alice"), some (JSVal.str "d-1"), some (JSVal.str "g-1"),
        some (JSVal.str "us-east-1")⟩, []⟩ (some ⟨some "AK", some "SK"⟩)
    "no such user" "u-1" (SendOutcome.ok "m-1") "2024-01-01T00:00:00Z"
    rfl (by decide) (by decide)).1

/-- C5: when template resolution succeeds, any error validateInputs throws
surfaces from invoke unchanged with no network call made and no client
constructed, and validateInputs throws the FatalError of the first field,
checked in the order userName, identityStoreId, groupId, region, that is
missing, not a string, or empty after trimming (later fields unexamined). -/
theorem invoke_validation_first_fail (tr : TemplateOutcome) (secrets : Option Secrets)
    (s1 s2 : SendOutcome) (now : String)
    (h0 : tr.errors = []) :
    (∀ e, validateInputs tr.result = Except.error e →
        invoke tr secrets s1 s2 now =
          { outcome := Except.error e, calls := [], clientConstructed := false })
    ∧ (validField tr.result.userName = false →
        validateInputs tr.result =
          Except.error (FatalError "Invalid or missing userName parameter"))
    ∧ (validField tr.result.userName = true →
        validField tr.result.identityStoreId = false →
        validateInputs tr.result =
          Except.error (FatalError "Invalid or missing identityStoreId parameter"))
    ∧ (validField tr.result.userName = true →
        validField tr.result.identityStoreId = true →
        validField tr.result.groupId = false →
        validateInputs tr.result =
          Except.error (FatalError "Invalid or missing groupId parameter"))
    ∧ (validField tr.result.userName = true →
        validField tr.result.identityStoreId = true →
        validField tr.result.groupId = true →
        validField tr.result.region = false →
        validateInputs tr.result =
          Except.error (FatalError "Invalid or missing region parameter")) := by
  refine ⟨?_, ?_, ?_, ?_, ?_⟩
  · intro e he
    have hf : e = FatalError e.message := validateInputs_error_shape tr.result e he
    have hr : e.retryable ≠ none := by rw [hf]; simp [FatalError]
    have hbody : invokeBody tr.result secrets s1 s2 now =
        { outcome := Except.error e, calls := [], clientConstructed := false } := by
      simp [invokeBody, he]
    simp [invoke, h0, hbody,
      applyCatch_rethrow { outcome := Except.error e, calls := [], clientConstructed := false }
        e rfl hr]
  · intro h1; simp [validateInputs, h1]
  · intro h1 h2; simp [validateInputs, h1, h2]
  · intro h1 h2 h3; simp [validateInputs, h1, h2, h3]
  · intro h1 h2 h3 h4; simp [validateInputs, h1, h2, h3, h4]

/-- C5 witness: a whitespace-only userName is rejected with the userName
message, no network call made. -/
theorem invoke_validation_first_fail_witness :
    invoke ⟨⟨some (JSVal.str "   "), some (JSVal.str "d-1"), some (JSVal.str "g-1"),
        some (JSVal.str "us-east-1")⟩, []⟩ (some ⟨some "AK", some "SK"⟩)
        (SendOutcome.ok "u-1") (SendOutcome.ok "m-1") "2024-01-01T00:00:00Z" =
      { outcome := Except.error (FatalError "Invalid or missing userName parameter"),
        calls := [], clientConstructed := false } := by
  have h := invoke_validation_first_fail
    ⟨⟨some (JSVal.str "   "), some (JSVal.str "d-1"), some (JSVal.str "g-1"),
        some (JSVal.str "us-east-1")⟩, []⟩ (some ⟨some "AK", some "SK"⟩)
    (SendOutcome.ok "u-1") (SendOutcome.ok "m-1") "2024-01-01T00:00:00Z" rfl
  exact h.1 _ (h.2.1 (by decide))

/-- C6: when template resolution succeeds and either credential secret is
absent or empty (or the secrets object itself is absent), invoke raises a
FatalError before the directory client is constructed and before any network
call, whatever the params contain. -/
theorem invoke_missing_creds_fatal (tr : TemplateOutcome) (secrets : Option Secrets)
    (s1 s2 : SendOutcome) (now : String)
    (h0 : tr.errors = [])
    (hc : credsOk secrets = false) :
    ∃ m, invoke tr secrets s1 s2 now =
      { outcome := Except.error (FatalError m), calls := [], clientConstructed := false } := by
  cases hv : validateInputs tr.result with
  | error e =>
    refine ⟨e.message, ?_⟩
    have hf := validateInputs_error_shape tr.result e hv
    have hr : e.retryable ≠ none := by rw [hf]; simp [FatalError]
    have hbody : invokeBody tr.result secrets s1 s2 now =
        { outcome := Except.error e, calls := [], clientConstructed := false } := by
      simp [invokeBody, hv]
    rw [← hf]
    simp [invoke, h0, hbody,
      applyCatch_rethrow { outcome := Except.error e, calls := [], clientConstructed := false }
        e rfl hr]
  | ok u =>
    refine ⟨"Missing required credentials in secrets", ?_⟩
    simp [invoke, h0, invokeBody, hv, hc, applyCatch, isRetryableError, isFatalError,
      FatalError]

/-- C6 witness: valid params but an empty BASIC_PASSWORD. -/
theorem invoke_missing_creds_fatal_witness :
    ∃ m, invoke ⟨⟨some (JSVal.str "alice"), some (JSVal.str "d-1"), some (JSVal.str "g-1"),
        some (JSVal.str "us-east-1")⟩, []⟩ (some ⟨some "AK", some ""⟩)
        (SendOutcome.ok "u-1") (SendOutcome.ok "m-1") "2024-01-01T00:00:00Z" =
      { outcome := Except.error (FatalError m), calls := [], clientConstructed := false } := by
  exact invoke_missing_creds_fatal
    ⟨⟨some (JSVal.str "alice"), some (JSVal.str "d-1"), some (JSVal.str "g-1"),
        some (JSVal.str "us-east-1")⟩, []⟩ (some ⟨some "AK", some ""⟩)
    (SendOutcome.ok "u-1") (SendOutcome.ok "m-1") "2024-01-01T00:00:00Z" rfl (by decide)

/-- C7 counterexample: the claim quantifies over every membership identifier
m returned by a successful creation call, but when the upstream call succeeds
with the literal identifier "existing" the code confuses it with its own
in-band conflict sentinel: it does not return membershipId = "existing" with
added = true as the claim requires, but "already-member" with added =
false. -/
theorem invoke_success_sentinel_collision :
    (invoke ⟨⟨some (JSVal.str "alice"), some (JSVal.str "d-1"), some (JSVal.str "g-1"),
        some (JSVal.str "us-east-1")⟩, []⟩ (some ⟨some "AK", some "SK"⟩)
        (SendOutcome.ok "u-1") (SendOutcome.ok "existing") "2024-01-01T00:00:00Z").outcome ≠
      Except.ok { userName := "alice", groupId := "g-1", userId := "u-1",
                  membershipId := "existing", added := true,
                  addedAt := "2024-01-01T00:00:00Z" } ∧
    (invoke ⟨⟨some (JSVal.str "alice"), some (JSVal.str "d-1"), some (JSVal.str "g-1"),
        some (JSVal.str "us-east-1")⟩, []⟩ (some ⟨some "AK", some "SK"⟩)
        (SendOutcome.ok "u-1") (SendOutcome.ok "existing") "2024-01-01T00:00:00Z").outcome =
      Except.ok { userName := "alice", groupId := "g-1", userId := "u-1",
                  membershipId := "already-member", added := false,
                  addedAt := "2024-01-01T00:00:00Z" } := by
  exact ⟨by decide, by decide⟩

/-- C7 amended: when template resolution, validation and the credential check
succeed, user resolution returns u and membership creation succeeds with
identifier m, provided m is not the literal sentinel string "existing",
invoke returns exactly the record of the resolved userName and groupId, the
resolved userId u, membershipId m, added = true, and the current ISO-8601
instant as addedAt, having made exactly the two network calls. -/
theorem invoke_success_result (tr : TemplateOutcome) (secrets : Option Secrets)
    (u m now : String)
    (h0 : tr.errors = [])
    (hv : validateInputs tr.result = Except.ok ())
    (hc : credsOk secrets = true)
    (hm : m ≠ "existing") :
    invoke tr secrets (SendOutcome.ok u) (SendOutcome.ok m) now =
      { outcome := Except.ok
          { userName := strOf tr.result.userName
            groupId := strOf tr.result.groupId
            userId := u
            membershipId := m
            added := true
            addedAt := now },
        calls := [ApiCall.getUserId (strOf tr.result.identityStoreId) (strOf tr.result.userName),
                  ApiCall.createMembership (strOf tr.result.identityStoreId)
                    (strOf tr.result.groupId) u],
        clientConstructed := true } := by
  have hm' : (m == "existing") = false := by simp [hm]
  simp [invoke, h0, invokeBody, hv, hc, getUserIdFromUsername, addUserToGroup,
    applyCatch, hm']

/-- C7 witness: the concrete example of the spec. -/
theorem invoke_success_result_witness :
    invoke ⟨⟨some (JSVal.str "alice"), some (JSVal.str "d-1"), some (JSVal.str "g-1"),
        some (JSVal.str "us-east-1")⟩, []⟩ (some ⟨some "AK", some "SK"⟩)
        (SendOutcome.ok "u-1") (SendOutcome.ok "m-1") "2024-01-01T00:00:00Z" =
      { outcome := Except.ok
          { userName := "alice", groupId := "g-1", userId := "u-1",
            membershipId := "m-1", added := true, addedAt := "2024-01-01T00:00:00Z" },
        calls := [ApiCall.getUserId "d-1" "alice",
                  ApiCall.createMembership "d-1" "g-1" "u-1"],
        clientConstructed := true } := by
  exact invoke_success_result
    ⟨⟨some (JSVal.str "alice"), some (JSVal.str "d-1"), some (JSVal.str "g-1"),
        some (JSVal.str "us-east-1")⟩, []⟩ (some ⟨some "AK", some "SK"⟩)
    "u-1" "m-1" "2024-01-01T00:00:00Z" rfl (by decide) (by decide) (by decide)

/-- C1 counterexample: with a non-empty template-resolution error list,
invoke raises the plain Error built outside the try block, which carries no
retryable flag at all: it is neither the FatalError the claim requires nor a
RetryableError, so an unclassified error does escape invoke. -/
theorem invoke_template_error_unclassified :
    (invoke ⟨⟨some (JSVal.str "alice"), some (JSVal.str "d-1"), some (JSVal.str "g-1"),
        some (JSVal.str "us-east-1")⟩, ["boom"]⟩ (some ⟨some "AK", some "SK"⟩)
        (SendOutcome.ok "u-1") (SendOutcome.ok "m-1") "2024-01-01T00:00:00Z").outcome =
      Except.error (plainError "Failed to resolve template values: boom") ∧
    (plainError "Failed to resolve template values: boom").retryable ≠ some false ∧
    (plainError "Failed to resolve template values: boom").retryable ≠ some true := by
  exact ⟨by decide, by decide, by decide⟩

/-- C1 amended: a non-empty template-resolution error list makes invoke raise
an error joining the error messages, but that error is the plain, unclassified
Error constructor (no retryable flag), because it is thrown before the try
block; every error invoke raises when template resolution succeeds is
classified, carrying retryable = true or retryable = false. -/
theorem invoke_error_classification (tr : TemplateOutcome) (secrets : Option Secrets)
    (s1 s2 : SendOutcome) (now : String) :
    (tr.errors ≠ [] →
      invoke tr secrets s1 s2 now =
        { outcome := Except.error (plainError
            ("Failed to resolve template values: " ++ String.intercalate ", " tr.errors)),
          calls := [], clientConstructed := false } ∧
      (plainError
          ("Failed to resolve template values: " ++ String.intercalate ", " tr.errors)).retryable
        = none)
    ∧ (tr.errors = [] → ∀ e, (invoke tr secrets s1 s2 now).outcome = Except.error e →
        e.retryable = some true ∨ e.retryable = some false) := by
  constructor
  · intro hne
    have hl : 0 < tr.errors.length := List.length_pos.mpr hne
    constructor
    · simp [invoke, hl]
    · rfl
  · intro h0 e he
    rw [invoke, if_neg (by simp [h0])] at he
    exact applyCatch_classifies _ e he

/-- C1 witness: the two branches at concrete inputs: a failing resolution
raises the joined plain Error, and a throttled call after a successful
resolution raises an error carrying a retryable flag. -/
theorem invoke_error_classification_witness :
    invoke ⟨⟨some (JSVal.str "alice"), some (JSVal.str "d-1"), some (JSVal.str "g-1"),
        some (JSVal.str "us-east-1")⟩, ["a", "b"]⟩ none
        (SendOutcome.ok "u-1") (SendOutcome.ok "m-1") "2024-01-01T00:00:00Z" =
      { outcome := Except.error (plainError "Failed to resolve template values: a, b"),
        calls := [], clientConstructed := false } ∧
    ((RetryableError "AWS service temporarily unavailable: x").retryable = some true ∨
      (RetryableError "AWS service temporarily unavailable: x").retryable = some false) := by
  constructor
  · exact ((invoke_error_classification
      ⟨⟨some (JSVal.str "alice"), some (JSVal.str "d-1"), some (JSVal.str "g-1"),
          some (JSVal.str "us-east-1")⟩, ["a", "b"]⟩ none
      (SendOutcome.ok "u-1") (SendOutcome.ok "m-1") "2024-01-01T00:00:00Z").1
      (by decide)).1
  · exact (invoke_error_classification
      ⟨⟨some (JSVal.str "alice"), some (JSVal.str "d-1"), some (JSVal.str "g-1"),
          some (JSVal.str "us-east-1")⟩, []⟩ (some ⟨some "AK", some "SK"⟩)
      (SendOutcome.err ⟨"ThrottlingException", "x", none⟩)
      (SendOutcome.ok "m-1") "2024-01-01T00:00:00Z").2 rfl
      (RetryableError "AWS service temporarily unavailable: x") (by decide)

end AwsAddToGroup
